import Mathlib

/-!
Verification of the ZeoFill Supabase integration pipeline
(`supabase_integration.py`): the channel transforms
`transform_shopify_walmart_data` / `transform_amazon_data`, the paginated
fetch loops, and the aggregator `fetch_all_order_data`.

Modelling conventions:
* A raw cell is `Option String`: `none` is a missing value (pandas `NaN`),
  `some s` a scalar rendered as the string pandas' `astype(str)` would
  produce for it.  A raw row is `String → Option Cell`: the outer `none`
  means the column is absent from the table (the code's
  `'col' in df.columns` checks); columns the code indexes unconditionally
  are read with `mand`.
* Numbers are exact rationals `ℚ`.  The code's float formulas (e.g.
  `revenue * 0.40`) are modelled by the same formulas over `ℚ`; a pandas
  `NaN` produced by a failed coercion is `none : Option ℚ` and propagates
  through arithmetic exactly as `NaN` does (`osub`).
* `pd.to_numeric(_, errors := coerce)` is modelled by `parseDecimal` on the
  cell's string form (decimal fragment: optional sign, digits, optional
  fractional part), `pd.to_datetime(_, errors := coerce)` by `parseDate`
  on ISO `YYYY-MM-DD` strings; both yield `none` on failure.
-/

namespace ZeoFill

/-- A single cell of a raw table: `none` models a pandas `NaN` / missing
value, `some s` a scalar whose `astype(str)` rendering is `s`. -/
abbrev Cell := Option String

/-- A raw row after the fee join: maps a column name to `none` when the
column is absent from the table, otherwise to the row's cell. -/
abbrev Row := String → Option Cell

/-- Access to a column the Python code indexes unconditionally
(`df['created_at']`, `df['line_total']`, ...): modelled as the cell, with
an absent column read as a missing value. -/
def mand (row : Row) (c : String) : Cell :=
  (row c).getD none

/-- pandas `astype(str)` on a cell: `NaN` renders as the string `nan`. -/
def astypeStr (c : Cell) : String :=
  c.getD "nan"

/-- Whitespace test for stripping (space, tab, newline, carriage
return). -/
def isSpaceChar (c : Char) : Bool :=
  c = ' ' || c = Char.ofNat 9 || c = Char.ofNat 10 || c = Char.ofNat 13

/-- Python `.strip()` / pandas `.str.strip()` on the character list of a
string. -/
def trimChars (l : List Char) : List Char :=
  ((l.dropWhile isSpaceChar).reverse.dropWhile isSpaceChar).reverse

/-- Python `.strip()` / pandas `.str.strip()`. -/
def pyStrip (s : String) : String :=
  String.mk (trimChars s.toList)

/-- pandas `.str.upper()`. -/
def pyUpper (s : String) : String :=
  String.mk (s.toList.map Char.toUpper)

/-- pandas `.str.lower()`. -/
def pyLower (s : String) : String :=
  String.mk (s.toList.map Char.toLower)

/-- Split a character list on a separator character. -/
def splitOnChar (sep : Char) : List Char → List (List Char)
  | [] => [[]]
  | c :: rest =>
      let r := splitOnChar sep rest
      if c = sep then [] :: r
      else
        match r with
        | h :: t => (c :: h) :: t
        | [] => [[c]]

/-- Numeric value of a list of ASCII digit characters. -/
def digitsVal (l : List Char) : ℕ :=
  l.foldl (fun a c => 10 * a + (c.toNat - 48)) 0

/-- Decimal-number parsing, the fragment of `pd.to_numeric(_, coerce)` /
Python `float()` exercised by this pipeline: surrounding whitespace
stripped, optional sign, digits with an optional fractional part.
Anything else (including the string `nan`) parses to `none` (`NaN`). -/
def parseDecimal (s : String) : Option ℚ :=
  let t := trimChars s.toList
  let sign : ℚ :=
    match t with
    | c :: _ => if c = Char.ofNat 45 then -1 else 1
    | [] => 1
  let body :=
    match t with
    | c :: rest => if c = Char.ofNat 45 || c = Char.ofNat 43 then rest else t
    | [] => t
  match splitOnChar (Char.ofNat 46) body with
  | [ip] =>
      if ip.length > 0 && ip.all Char.isDigit then
        some (sign * (digitsVal ip : ℚ))
      else none
  | [ip, fp] =>
      if (ip.length > 0 || fp.length > 0)
          && ip.all Char.isDigit && fp.all Char.isDigit then
        some (sign * ((digitsVal ip : ℚ)
          + (digitsVal fp : ℚ) / (10 : ℚ) ^ fp.length))
      else none
  | _ => none

/-- `pd.to_numeric(col, errors := coerce)` on a cell: `NaN` stays `NaN`,
a scalar is parsed from its string form. -/
def toNumeric (c : Cell) : Option ℚ :=
  c.bind parseDecimal

/-- `.fillna(0)` after a numeric coercion. -/
def fillna0 (o : Option ℚ) : ℚ :=
  o.getD 0

/-- `.str.replace(dollar,).str.replace(comma,)` — currency stripping:
every `$` and `,` character is removed. -/
def stripCurrencyChars (s : String) : String :=
  String.mk (s.toList.filter (fun c => !(c = Char.ofNat 36 || c = Char.ofNat 44)))

/-- The Amazon transform's currency cleaning:
`astype(str).str.replace(dollar,).str.replace(comma,).str.strip()`. -/
def currencyClean (c : Cell) : String :=
  pyStrip (stripCurrencyChars (astypeStr c))

/-- Currency-cleaned numeric coercion (`pd.to_numeric` on the cleaned
string column). -/
def toNumericCurrency (c : Cell) : Option ℚ :=
  parseDecimal (currencyClean c)

/-- A parsed calendar timestamp (`pd.to_datetime` result, `date` field). -/
structure PDate where
  year : ℕ
  month : ℕ
  day : ℕ
deriving DecidableEq, Repr

/-- ISO-date fragment of `pd.to_datetime(_, errors := coerce)`:
`YYYY-MM-DD` with a 4-digit year, 1–2 digit month in 1..12 and day in
1..31; any other string is `NaT` (`none`). -/
def parseDate (s : String) : Option PDate :=
  match splitOnChar (Char.ofNat 45) (trimChars s.toList) with
  | [y, m, d] =>
      if y.length = 4 && y.all Char.isDigit
          && 0 < m.length && m.length ≤ 2 && m.all Char.isDigit
          && 0 < d.length && d.length ≤ 2 && d.all Char.isDigit then
        let mv := digitsVal m
        let dv := digitsVal d
        if 1 ≤ mv && mv ≤ 12 && 1 ≤ dv && dv ≤ 31 then
          some ⟨digitsVal y, mv, dv⟩
        else none
      else none
  | _ => none

/-- `pd.to_datetime` on a cell: `NaN` gives `NaT`. -/
def toDatetime (c : Cell) : Option PDate :=
  c.bind parseDate

/-- `NaN`-propagating subtraction on derived financial columns. -/
def osub : Option ℚ → Option ℚ → Option ℚ
  | some a, some b => some (a - b)
  | _, _ => none

end ZeoFill

namespace ZeoFill

/-! ## `transform_shopify_walmart_data` (per row) -/

/-- The record built by `transform_shopify_walmart_data` for one row, with
the columns it assigns.  Revenue-derived columns are `Option ℚ` (`none` is
a pandas `NaN` awaiting the `dropna` filter). -/
structure SWPre where
  date : Option PDate
  order_id : String
  revenue : Option ℚ
  shipping_cost : ℚ
  tax : ℚ
  state : String
  products : String
  financial_status : String
  fulfillment_status : String
  shipping_terms : Option String
  customer_name : String
  shipping_address : String
  shipping_city : String
  shipping_zipcode : String
  cogs : Option ℚ
  platform_fee : Option ℚ
  discount : ℚ
  refund_amount : Option ℚ
  refund : Option ℚ
  channel : String
  net_revenue : Option ℚ
  gross_profit : Option ℚ
  net_profit : Option ℚ
deriving DecidableEq, Repr

/-- `calc_shopify_shipping`: `float(weight)` tiering.  A `NaN` cell is a
float whose comparisons `w < 1` and `w <= 5` are both false, so it lands
in the `else` branch (19.5); a string `float()` rejects raises and hits
the `except` branch (0.0). -/
def calcShopifyShipping (c : Cell) : ℚ :=
  match c with
  | none => 19.5
  | some s =>
      match parseDecimal s with
      | some w => if w < 1 then 7.0 else if w ≤ 5 then 12.0 else 19.5
      | none => 0.0

/-- `transformed['revenue'] = pd.to_numeric(df['line_total'], coerce)`. -/
def swRevenue (row : Row) : Option ℚ :=
  toNumeric (mand row "line_total")

/-- Shipping-cost mapping of `transform_shopify_walmart_data`:
Shopify tiers by `weight` when that column exists; Walmart uses
`commission_from_sale` gated on upper-cased `transaction_type = ADJMNT`
when both fee columns exist; otherwise `line_shipping` filled with 0. -/
def swShippingCost (channel : String) (row : Row) : ℚ :=
  if channel = "Shopify" then
    match row "weight" with
    | some c => calcShopifyShipping c
    | none => fillna0 (toNumeric (mand row "line_shipping"))
  else if channel = "Walmart" then
    match row "commission_from_sale", row "transaction_type" with
    | some cc, some tc =>
        if pyUpper (astypeStr tc) = "ADJMNT" then fillna0 (toNumeric cc) else 0
    | _, _ => fillna0 (toNumeric (mand row "line_shipping"))
  else fillna0 (toNumeric (mand row "line_shipping"))

/-- `financial_status`: lower-cased trimmed string when the column exists,
else the default `paid`. -/
def swFinancialStatus (row : Row) : String :=
  match row "financial_status" with
  | some c => pyLower (pyStrip (astypeStr c))
  | none => "paid"

/-- `products`: trimmed `product_name` when the column exists, else the
default product name. -/
def swProducts (row : Row) : String :=
  match row "product_name" with
  | some c => pyStrip (astypeStr c)
  | none => "ZeoFill Product"

/-- `state`: upper-cased trimmed value with empty/`NAN`/`NONE` replaced by
`Unknown`; `Unknown` when the column is absent. -/
def normState (c : Cell) : String :=
  let s := pyUpper (pyStrip (astypeStr c))
  if s = "" || s = "NAN" || s = "NONE" then "Unknown" else s

/-- Platform-fee mapping: Shopify `processing_fee` filled with 0, else
`revenue*0.059 + 0.30`; Walmart `commission_from_sale` gated on
upper-cased `transaction_type = SALE` when both fee columns exist, else
`revenue*0.15`; other channels 0. -/
def swPlatformFee (channel : String) (row : Row) : Option ℚ :=
  if channel = "Shopify" then
    match row "processing_fee" with
    | some c => some (fillna0 (toNumeric c))
    | none => (swRevenue row).map (fun r => r * 0.059 + 0.30)
  else if channel = "Walmart" then
    match row "commission_from_sale", row "transaction_type" with
    | some cc, some tc =>
        some (if pyUpper (astypeStr tc) = "SALE" then fillna0 (toNumeric cc) else 0)
    | _, _ => (swRevenue row).map (fun r => r * 0.15)
  else some 0

/-- `refund_amount`: the row's revenue when `financial_status` is
`refunded` or `partially_refunded`, else `0.0`. -/
def swRefundAmount (row : Row) : Option ℚ :=
  if swFinancialStatus row = "refunded" || swFinancialStatus row = "partially_refunded" then
    swRevenue row
  else some 0

/-- One row of `transform_shopify_walmart_data`, all column assignments in
the code's order. -/
def swMapRow (channel : String) (row : Row) : SWPre :=
  let revenue := swRevenue row
  let refund_amount := swRefundAmount row
  let shipping_cost := swShippingCost channel row
  let platform_fee := swPlatformFee channel row
  let cogs := revenue.map (fun r => r * 0.40)
  let net_revenue := osub revenue refund_amount
  let gross_profit := osub net_revenue cogs
  { date := toDatetime (mand row "created_at")
    order_id :=
      match row "order_number" with
      | some c =>
          if channel = "Shopify" then "Order #" ++ pyStrip (astypeStr c)
          else pyStrip (astypeStr (mand row "order_id"))
      | none => pyStrip (astypeStr (mand row "order_id"))
    revenue := revenue
    shipping_cost := shipping_cost
    tax := fillna0 (toNumeric (mand row "line_tax"))
    state :=
      match row "state" with
      | some c => normState c
      | none => "Unknown"
    products := swProducts row
    financial_status := swFinancialStatus row
    fulfillment_status :=
      match row "fulfillment_status" with
      | some c => pyStrip (astypeStr c)
      | none => "fulfilled"
    shipping_terms :=
      match row "shipping_terms" with
      | some c => some (pyStrip (astypeStr c))
      | none => none
    customer_name :=
      match row "customer_name" with
      | some c => pyStrip (astypeStr c)
      | none => "N/A"
    shipping_address :=
      match row "shipping_address" with
      | some c => pyStrip (astypeStr c)
      | none => "N/A"
    shipping_city :=
      match row "shipping_city" with
      | some c => pyStrip (astypeStr c)
      | none => "N/A"
    shipping_zipcode :=
      match row "shipping_zipcode" with
      | some c => pyStrip (astypeStr c)
      | none => "N/A"
    cogs := cogs
    platform_fee := platform_fee
    discount :=
      match row "discount" with
      | some c => fillna0 (toNumeric c)
      | none => 0
    refund_amount := refund_amount
    refund := refund_amount
    channel := channel
    net_revenue := net_revenue
    gross_profit := gross_profit
    net_profit := osub (osub gross_profit (some shipping_cost)) platform_fee }

/-- The validation filter: keep a row iff its `date` parsed and its
`revenue` parsed to a positive number
(`dropna(subset=[date, revenue])` then `revenue > 0`). -/
def keepRecord (p : SWPre) : Bool :=
  p.date.isSome &&
    match p.revenue with
    | some r => decide (0 < r)
    | none => false

/-- The rows surviving `transform_shopify_walmart_data`: every row
mapped, then the validation filter applied. -/
def swTransformOut (channel : String) (rows : List Row) : List SWPre :=
  (rows.map (swMapRow channel)).filter keepRecord

/-- `transform_shopify_walmart_data` result: `None` on an absent/empty
input or when no row survives, otherwise the surviving records. -/
def swTransform (channel : String) (rows : List Row) : Option (List SWPre) :=
  if rows.isEmpty then none
  else if (swTransformOut channel rows).isEmpty then none
  else some (swTransformOut channel rows)

end ZeoFill

namespace ZeoFill

/-! ## `transform_amazon_data` (per row) -/

/-- The record built by `transform_amazon_data` for one row, with exactly
the columns that function assigns (note: no `fulfillment_status` and no
`shipping_terms`; `order_status` is kept instead). -/
structure AmzPre where
  date : Option PDate
  order_id : String
  revenue : Option ℚ
  shipping_cost : ℚ
  tax : ℚ
  state : String
  products : String
  financial_status : String
  order_status : String
  customer_name : String
  shipping_address : String
  shipping_city : String
  shipping_zipcode : String
  cogs : Option ℚ
  platform_fee : Option ℚ
  discount : ℚ
  refund_amount : Option ℚ
  refund : Option ℚ
  channel : String
  net_revenue : Option ℚ
  gross_profit : Option ℚ
  net_profit : Option ℚ
deriving DecidableEq, Repr

/-- The `status_map` dictionary applied with `.map(...).fillna('paid')`:
unmapped statuses become `NaN`, then `paid`. -/
def amzStatusMap (s : String) : String :=
  if s = "Canceled" then "refunded"
  else if s = "Cancelled" then "refunded"
  else if s = "Pending" then "pending"
  else if s = "Shipped" then "paid"
  else if s = "Delivered" then "paid"
  else if s = "Unshipped" then "pending"
  else "paid"

/-- Amazon `revenue`: currency-cleaned `item-price` coerced with no
`fillna`; the scalar `0` when the column is absent. -/
def amzRevenue (row : Row) : Option ℚ :=
  match row "item-price" with
  | some c => toNumericCurrency c
  | none => some 0

/-- Amazon `shipping_cost`: `shipping_label_cost`, else `shipping-price`,
currency-cleaned and filled with 0; the scalar 0 when neither exists. -/
def amzShippingCost (row : Row) : ℚ :=
  match row "shipping_label_cost" with
  | some c => fillna0 (toNumericCurrency c)
  | none =>
      match row "shipping-price" with
      | some c => fillna0 (toNumericCurrency c)
      | none => 0

/-- Amazon `tax`: currency-cleaned `item-tax` plus `shipping-tax`, each
filled with 0 and contributing 0 when the column is absent. -/
def amzTax (row : Row) : ℚ :=
  (match row "item-tax" with
    | some c => fillna0 (toNumericCurrency c)
    | none => 0) +
  (match row "shipping-tax" with
    | some c => fillna0 (toNumericCurrency c)
    | none => 0)

/-- Amazon `financial_status`: trimmed `order-status` pushed through
`status_map` with default `paid`; `paid` when the column is absent. -/
def amzFinancialStatus (row : Row) : String :=
  match row "order-status" with
  | some c => amzStatusMap (pyStrip (astypeStr c))
  | none => "paid"

/-- Amazon `platform_fee`: currency-cleaned `shop_fees` filled with 0,
else the fallback `revenue*0.15 + 0.99`. -/
def amzPlatformFee (row : Row) : Option ℚ :=
  match row "shop_fees" with
  | some c => some (fillna0 (toNumericCurrency c))
  | none => (amzRevenue row).map (fun r => r * 0.15 + 0.99)

/-- Amazon `total_discount`: currency-cleaned `item-promotion-discount`
plus `ship-promotion-discount`, each filled with 0, starting from the
scalar 0. -/
def amzDiscount (row : Row) : ℚ :=
  (match row "item-promotion-discount" with
    | some c => fillna0 (toNumericCurrency c)
    | none => 0) +
  (match row "ship-promotion-discount" with
    | some c => fillna0 (toNumericCurrency c)
    | none => 0)

/-- Amazon `refund_amount`: the row's revenue when `financial_status` is
`refunded`, else `0.0`. -/
def amzRefundAmount (row : Row) : Option ℚ :=
  if amzFinancialStatus row = "refunded" then amzRevenue row else some 0

/-- One row of `transform_amazon_data`, all column assignments in the
code's order. -/
def amzMapRow (row : Row) : AmzPre :=
  let revenue := amzRevenue row
  let refund_amount := amzRefundAmount row
  let shipping_cost := amzShippingCost row
  let platform_fee := amzPlatformFee row
  let discount := amzDiscount row
  let cogs := revenue.map (fun r => r * 0.40)
  let net_revenue := osub (osub revenue refund_amount) (some discount)
  let gross_profit := osub net_revenue cogs
  { date := toDatetime (mand row "purchase-date")
    order_id := pyStrip (astypeStr (mand row "amazon-order-id"))
    revenue := revenue
    shipping_cost := shipping_cost
    tax := amzTax row
    state :=
      match row "ship-state" with
      | some c => normState c
      | none => "Unknown"
    products :=
      match row "product-name" with
      | some c => pyStrip (astypeStr c)
      | none => "Amazon Product"
    financial_status := amzFinancialStatus row
    order_status :=
      match row "order-status" with
      | some c => pyStrip (astypeStr c)
      | none => "Shipped"
    customer_name :=
      match row "recipient-name" with
      | some c => pyStrip (astypeStr c)
      | none => "N/A"
    shipping_address :=
      match row "ship-address" with
      | some c => pyStrip (astypeStr c)
      | none => "N/A"
    shipping_city :=
      match row "ship-city" with
      | some c => pyStrip (astypeStr c)
      | none => "N/A"
    shipping_zipcode :=
      match row "ship-postal-code" with
      | some c => pyStrip (astypeStr c)
      | none => "N/A"
    cogs := cogs
    platform_fee := platform_fee
    discount := discount
    refund_amount := refund_amount
    refund := refund_amount
    channel := "Amazon"
    net_revenue := net_revenue
    gross_profit := gross_profit
    net_profit := osub (osub gross_profit (some shipping_cost)) platform_fee }

/-- The Amazon validation filter (`dropna(subset=[date, revenue])` then
`revenue > 0`). -/
def keepAmz (p : AmzPre) : Bool :=
  p.date.isSome &&
    match p.revenue with
    | some r => decide (0 < r)
    | none => false

/-- The rows surviving `transform_amazon_data`: every row mapped, then
the validation filter applied. -/
def amzTransformOut (rows : List Row) : List AmzPre :=
  (rows.map amzMapRow).filter keepAmz

/-- `transform_amazon_data` result: `None` on an absent/empty input or
when no row survives, otherwise the surviving records. -/
def amzTransform (rows : List Row) : Option (List AmzPre) :=
  if rows.isEmpty then none
  else if (amzTransformOut rows).isEmpty then none
  else some (amzTransformOut rows)

/-! ## Pagination (`fetch_shopify_data` / `fetch_walmart_data` /
`fetch_amazon_data` / `fetch_fee_data` share this loop) -/

/-- The fixed Supabase page size (`batch_size = 1000`). -/
def pageSize : ℕ := 1000

/-- One `range(offset, offset+batch_size-1)` request: the page a source
holding `data` returns for that offset window. -/
def pageAt (data : List ℕ) (offset : ℕ) : List ℕ :=
  (data.drop offset).take pageSize

/-- The `while True` pagination loop: one page request per iteration,
recursing with `offset += batch_size`; stops after a request returning no
rows or fewer than `pageSize` rows.  Returns the accumulated rows and the
number of page requests issued. -/
def fetchLoop (data : List ℕ) (offset : ℕ) : List ℕ × ℕ :=
  if (pageAt data offset).isEmpty then ([], 1)
  else if h : (pageAt data offset).length < pageSize then (pageAt data offset, 1)
  else
    let r := fetchLoop data (offset + pageSize)
    (pageAt data offset ++ r.1, r.2 + 1)
termination_by data.length - offset
decreasing_by
  simp only [pageAt, pageSize, List.length_take, List.length_drop] at h ⊢
  omega

/-- A whole channel fetch (`all_data = []; offset = 0; while True: ...`),
returning all accumulated rows and the number of requests. -/
def fetchAllRows (data : List ℕ) : List ℕ × ℕ :=
  fetchLoop data 0

/-! ## Aggregator (`fetch_all_order_data`) -/

/-- `fetch_all_order_data`: append each channel's transform output when it
is neither `None` nor empty — Shopify, then Walmart, then Amazon — and
concatenate; `None` when no channel contributed. -/
def fetchAllOrderData (shop wal : Option (List SWPre)) (amz : Option (List AmzPre)) :
    Option (List (SWPre ⊕ AmzPre)) :=
  let l1 := match shop with
    | some l => if l.isEmpty then [] else l.map Sum.inl
    | none => []
  let l2 := match wal with
    | some l => if l.isEmpty then [] else l.map Sum.inl
    | none => []
  let l3 := match amz with
    | some l => if l.isEmpty then [] else l.map Sum.inr
    | none => []
  let combined := l1 ++ l2 ++ l3
  if combined.isEmpty then none else some combined

/-! ## Column lists

The set of canonical columns each transform assigns, in assignment
order, and the schema the specification promises. -/

/-- Columns assigned by `transform_shopify_walmart_data`. -/
def swColumns : List String :=
  ["date", "order_id", "revenue", "shipping_cost", "tax", "state",
   "products", "financial_status", "fulfillment_status", "shipping_terms",
   "customer_name", "shipping_address", "shipping_city",
   "shipping_zipcode", "cogs", "platform_fee", "discount",
   "refund_amount", "refund", "channel", "net_revenue", "gross_profit",
   "net_profit"]

/-- Columns assigned by `transform_amazon_data`. -/
def amzColumns : List String :=
  ["date", "order_id", "revenue", "shipping_cost", "tax", "state",
   "products", "financial_status", "order_status", "customer_name",
   "shipping_address", "shipping_city", "shipping_zipcode", "cogs",
   "platform_fee", "discount", "refund_amount", "refund", "channel",
   "net_revenue", "gross_profit", "net_profit"]

/-- Modelled from the spec: the `CanonicalOrderRecord` fixed schema of
spec section 3, used to compare the spec's promised field list with the
columns the code actually assigns. -/
def canonicalSchema : List String :=
  ["date", "order_id", "channel", "revenue", "shipping_cost", "tax",
   "state", "products", "financial_status", "fulfillment_status",
   "shipping_terms", "customer_name", "shipping_address", "shipping_city",
   "shipping_zipcode", "cogs", "platform_fee", "discount",
   "refund_amount", "refund", "net_revenue", "gross_profit",
   "net_profit"]

end ZeoFill

namespace ZeoFill

/-! ## Concrete test rows -/

/-- Build a row from an association list of present columns. -/
def rowOf (l : List (String × Cell)) : Row := fun c =>
  match l.find? (fun p => p.1 = c) with
  | some p => some p.2
  | none => none

/-- Scenario A of the specification: a Shopify row with weight 3 and
line total 100.00. -/
def scenarioARow : Row :=
  rowOf [("created_at", some "2024-01-05"), ("order_id", some "1001"),
         ("line_total", some "100.00"), ("line_tax", some "5.00"),
         ("weight", some "3"), ("financial_status", some "paid")]

/-- Scenario B: a Walmart order row joined with an `ADJMNT` fee row. -/
def walmartAdjRow : Row :=
  rowOf [("created_at", some "2024-01-06"), ("order_id", some "W1"),
         ("line_total", some "50.00"), ("line_tax", some "0"),
         ("transaction_type", some "ADJMNT"),
         ("commission_from_sale", some "8.00")]

/-- Scenario B: a Walmart order row joined with a `SALE` fee row. -/
def walmartSaleRow : Row :=
  rowOf [("created_at", some "2024-01-07"), ("order_id", some "W2"),
         ("line_total", some "50.00"), ("line_tax", some "0"),
         ("transaction_type", some "SALE"),
         ("commission_from_sale", some "15.00")]

/-- A Walmart row whose `transaction_type` cell is the lower-case string
`adjmnt` (not the literal `ADJMNT`). -/
def walmartLowerAdjRow : Row :=
  rowOf [("created_at", some "2024-01-08"), ("order_id", some "W3"),
         ("line_total", some "50.00"), ("line_tax", some "0"),
         ("transaction_type", some "adjmnt"),
         ("commission_from_sale", some "8.00")]

/-- Scenario C of the specification: an Amazon row with a pending order
status and a currency-formatted price. -/
def amazonPendingRow : Row :=
  rowOf [("purchase-date", some "2024-02-01"), ("amazon-order-id", some "AMZ1"),
         ("item-price", some "$59.99"), ("order-status", some "Pending")]

/-- An Amazon row with a canceled order status. -/
def amazonCanceledRow : Row :=
  rowOf [("purchase-date", some "2024-02-02"), ("amazon-order-id", some "AMZ2"),
         ("item-price", some "$10.00"), ("order-status", some "Canceled")]

/-- An Amazon row whose `item-price` cell is a malformed currency
string. -/
def amazonBadPriceRow : Row :=
  rowOf [("purchase-date", some "2024-02-03"), ("amazon-order-id", some "AMZ3"),
         ("item-price", some "abc"), ("order-status", some "Shipped")]

/-- A Shopify row whose `financial_status` and `product_name` columns are
present but whose cells are null (`NaN`). -/
def swNullCellRow : Row :=
  rowOf [("created_at", some "2024-03-01"), ("order_id", some "S9"),
         ("line_total", some "20.00"), ("line_tax", some "0"),
         ("financial_status", none), ("product_name", none)]

/-- A Shopify row whose lower-trimmed `financial_status` is `refunded`. -/
def swRefundedRow : Row :=
  rowOf [("created_at", some "2024-03-02"), ("order_id", some "S10"),
         ("line_total", some "30.00"), ("line_tax", some "0"),
         ("financial_status", some "Refunded ")]

/-- The canonical record the specification expects for Scenario A
(platform fee 6.20 and net profit 41.80 exactly, over `ℚ`). -/
def scenarioARec : SWPre :=
  { date := some ⟨2024, 1, 5⟩
    order_id := "1001"
    revenue := some 100
    shipping_cost := 12
    tax := 5
    state := "Unknown"
    products := "ZeoFill Product"
    financial_status := "paid"
    fulfillment_status := "fulfilled"
    shipping_terms := none
    customer_name := "N/A"
    shipping_address := "N/A"
    shipping_city := "N/A"
    shipping_zipcode := "N/A"
    cogs := some 40
    platform_fee := some 6.20
    discount := 0
    refund_amount := some 0
    refund := some 0
    channel := "Shopify"
    net_revenue := some 100
    gross_profit := some 60
    net_profit := some 41.80 }

/-! ## Helper lemmas -/

/-- Membership in a Shopify/Walmart transform output comes from mapping a
source row that passed the validation filter. -/
theorem swTransform_mem {channel : String} {rows : List Row} {out : List SWPre}
    {rec : SWPre} (h : swTransform channel rows = some out) (hm : rec ∈ out) :
    keepRecord rec = true ∧ ∃ row ∈ rows, rec = swMapRow channel row := by
  unfold swTransform swTransformOut at h
  split at h
  · simp at h
  · split at h
    · simp at h
    · injection h with h
      subst h
      rcases List.mem_filter.mp hm with ⟨hmem, hkeep⟩
      rcases List.mem_map.mp hmem with ⟨row, hrow, hrec⟩
      exact ⟨hkeep, row, hrow, hrec.symm⟩

/-- Membership in an Amazon transform output comes from mapping a source
row that passed the validation filter. -/
theorem amzTransform_mem {rows : List Row} {out : List AmzPre} {rec : AmzPre}
    (h : amzTransform rows = some out) (hm : rec ∈ out) :
    keepAmz rec = true ∧ ∃ row ∈ rows, rec = amzMapRow row := by
  unfold amzTransform amzTransformOut at h
  split at h
  · simp at h
  · split at h
    · simp at h
    · injection h with h
      subst h
      rcases List.mem_filter.mp hm with ⟨hmem, hkeep⟩
      rcases List.mem_map.mp hmem with ⟨row, hrow, hrec⟩
      exact ⟨hkeep, row, hrow, hrec.symm⟩

/-- A record that passes the filter has a parsed date and a positive
parsed revenue. -/
theorem keepRecord_spec {rec : SWPre} (h : keepRecord rec = true) :
    rec.date.isSome = true ∧ ∃ r, rec.revenue = some r ∧ 0 < r := by
  unfold keepRecord at h
  rcases hrev : rec.revenue with _ | r <;> rw [hrev] at h <;>
    simp_all [Bool.and_eq_true]

/-- An Amazon record that passes the filter has a parsed date and a
positive parsed revenue. -/
theorem keepAmz_spec {rec : AmzPre} (h : keepAmz rec = true) :
    rec.date.isSome = true ∧ ∃ r, rec.revenue = some r ∧ 0 < r := by
  unfold keepAmz at h
  rcases hrev : rec.revenue with _ | r <;> rw [hrev] at h <;>
    simp_all [Bool.and_eq_true]

/-- When the row's revenue parsed, its refund amount is a definite
rational. -/
theorem swRefundAmount_isSome {row : Row} {r : ℚ} (h : swRevenue row = some r) :
    ∃ ra, swRefundAmount row = some ra := by
  unfold swRefundAmount
  split_ifs
  · exact ⟨r, h⟩
  · exact ⟨0, rfl⟩

/-- When the row's revenue parsed, its platform fee is a definite
rational for every channel branch. -/
theorem swPlatformFee_isSome (channel : String) {row : Row} {r : ℚ}
    (h : swRevenue row = some r) : ∃ pf, swPlatformFee channel row = some pf := by
  unfold swPlatformFee
  split_ifs
  · rcases hc : row "processing_fee" with _ | c
    · exact ⟨r * 0.059 + 0.30, by simp [hc, h]⟩
    · exact ⟨fillna0 (toNumeric c), by simp [hc]⟩
  · rcases hc : row "commission_from_sale" with _ | cc <;>
      rcases ht : row "transaction_type" with _ | tc
    · exact ⟨r * 0.15, by simp [hc, ht, h]⟩
    · exact ⟨r * 0.15, by simp [hc, ht, h]⟩
    · exact ⟨r * 0.15, by simp [hc, ht, h]⟩
    · exact ⟨if pyUpper (astypeStr tc) = "SALE" then fillna0 (toNumeric cc) else 0,
        by simp [hc, ht]⟩
  · exact ⟨0, rfl⟩

/-- When the row's revenue parsed, its Amazon platform fee is a definite
rational. -/
theorem amzPlatformFee_isSome {row : Row} {r : ℚ}
    (h : amzRevenue row = some r) : ∃ pf, amzPlatformFee row = some pf := by
  unfold amzPlatformFee
  rcases hc : row "shop_fees" with _ | c
  · exact ⟨r * 0.15 + 0.99, by simp [hc, h]⟩
  · exact ⟨fillna0 (toNumericCurrency c), by simp [hc]⟩

/-- When the row's revenue parsed, its Amazon refund amount is a definite
rational. -/
theorem amzRefundAmount_isSome {row : Row} {r : ℚ}
    (h : amzRevenue row = some r) : ∃ ra, amzRefundAmount row = some ra := by
  unfold amzRefundAmount
  split_ifs
  · exact ⟨r, h⟩
  · exact ⟨0, rfl⟩

/-- The derived financial columns of a mapped Shopify/Walmart row whose
revenue parsed: the full `cogs`/`net_revenue`/`gross_profit`/`net_profit`
chain as computed by the code. -/
theorem swMapRow_chain (channel : String) {row : Row} {r : ℚ}
    (h : swRevenue row = some r) :
    ∃ ra pf, (swMapRow channel row).revenue = some r ∧
      (swMapRow channel row).refund_amount = some ra ∧
      (swMapRow channel row).platform_fee = some pf ∧
      (swMapRow channel row).cogs = some (r * 0.40) ∧
      (swMapRow channel row).net_revenue = some (r - ra) ∧
      (swMapRow channel row).gross_profit = some (r - ra - r * 0.40) ∧
      (swMapRow channel row).net_profit =
        some (r - ra - r * 0.40 - swShippingCost channel row - pf) := by
  rcases swRefundAmount_isSome h with ⟨ra, hra⟩
  rcases swPlatformFee_isSome channel h with ⟨pf, hpf⟩
  exact ⟨ra, pf, by simp [swMapRow, h, hra, hpf, osub]⟩

/-- The derived financial columns of a mapped Amazon row whose revenue
parsed. -/
theorem amzMapRow_chain {row : Row} {r : ℚ} (h : amzRevenue row = some r) :
    ∃ ra pf, (amzMapRow row).revenue = some r ∧
      (amzMapRow row).refund_amount = some ra ∧
      (amzMapRow row).platform_fee = some pf ∧
      (amzMapRow row).cogs = some (r * 0.40) ∧
      (amzMapRow row).net_revenue = some (r - ra - amzDiscount row) ∧
      (amzMapRow row).gross_profit = some (r - ra - amzDiscount row - r * 0.40) ∧
      (amzMapRow row).net_profit =
        some (r - ra - amzDiscount row - r * 0.40 - amzShippingCost row - pf) := by
  rcases amzRefundAmount_isSome h with ⟨ra, hra⟩
  rcases amzPlatformFee_isSome h with ⟨pf, hpf⟩
  exact ⟨ra, pf, by simp [amzMapRow, h, hra, hpf, osub]⟩

end ZeoFill

namespace ZeoFill

/-! ## Claims -/

/-- C1: for every record in the canonical output of every channel
transform (Shopify, Walmart, Amazon), the derived financial fields
satisfy the chain `cogs = revenue * 0.40`,
`gross_profit = net_revenue - cogs` and
`net_profit = gross_profit - shipping_cost - platform_fee`. -/
theorem c1_derived_financial_chain :
    (∀ (channel : String) (rows : List Row) (out : List SWPre) (rec : SWPre),
        swTransform channel rows = some out → rec ∈ out →
        ∃ r nr pf g, rec.revenue = some r ∧ rec.cogs = some (r * 0.40) ∧
          rec.net_revenue = some nr ∧ rec.platform_fee = some pf ∧
          rec.gross_profit = some g ∧ g = nr - r * 0.40 ∧
          rec.net_profit = some (g - rec.shipping_cost - pf))
    ∧ (∀ (rows : List Row) (out : List AmzPre) (rec : AmzPre),
        amzTransform rows = some out → rec ∈ out →
        ∃ r nr pf g, rec.revenue = some r ∧ rec.cogs = some (r * 0.40) ∧
          rec.net_revenue = some nr ∧ rec.platform_fee = some pf ∧
          rec.gross_profit = some g ∧ g = nr - r * 0.40 ∧
          rec.net_profit = some (g - rec.shipping_cost - pf)) := by
  constructor
  · intro channel rows out rec hout hmem
    obtain ⟨hkeep, row, hrow, rfl⟩ := swTransform_mem hout hmem
    obtain ⟨hdate, r, hrev, hpos⟩ := keepRecord_spec hkeep
    have hrev' : swRevenue row = some r := hrev
    obtain ⟨ra, pf, h1, h2, h3, h4, h5, h6, h7⟩ := swMapRow_chain channel hrev'
    exact ⟨r, r - ra, pf, r - ra - r * 0.40, h1, h4, h5, h3, h6, rfl, h7⟩
  · intro rows out rec hout hmem
    obtain ⟨hkeep, row, hrow, rfl⟩ := amzTransform_mem hout hmem
    obtain ⟨hdate, r, hrev, hpos⟩ := keepAmz_spec hkeep
    have hrev' : amzRevenue row = some r := hrev
    obtain ⟨ra, pf, h1, h2, h3, h4, h5, h6, h7⟩ := amzMapRow_chain hrev'
    exact ⟨r, r - ra - amzDiscount row, pf, r - ra - amzDiscount row - r * 0.40,
      h1, h4, h5, h3, h6, rfl, h7⟩

/-- Witness for `c1_derived_financial_chain` on the concrete Scenario A
Shopify table and a concrete Amazon table. -/
theorem c1_derived_financial_chain_witness :
    (swTransform "Shopify" [scenarioARow] = some [swMapRow "Shopify" scenarioARow] ∧
      ∃ r nr pf g, (swMapRow "Shopify" scenarioARow).revenue = some r ∧
        (swMapRow "Shopify" scenarioARow).cogs = some (r * 0.40) ∧
        (swMapRow "Shopify" scenarioARow).net_revenue = some nr ∧
        (swMapRow "Shopify" scenarioARow).platform_fee = some pf ∧
        (swMapRow "Shopify" scenarioARow).gross_profit = some g ∧ g = nr - r * 0.40 ∧
        (swMapRow "Shopify" scenarioARow).net_profit =
          some (g - (swMapRow "Shopify" scenarioARow).shipping_cost - pf)) ∧
    (amzTransform [amazonPendingRow] = some [amzMapRow amazonPendingRow] ∧
      ∃ r nr pf g, (amzMapRow amazonPendingRow).revenue = some r ∧
        (amzMapRow amazonPendingRow).cogs = some (r * 0.40) ∧
        (amzMapRow amazonPendingRow).net_revenue = some nr ∧
        (amzMapRow amazonPendingRow).platform_fee = some pf ∧
        (amzMapRow amazonPendingRow).gross_profit = some g ∧ g = nr - r * 0.40 ∧
        (amzMapRow amazonPendingRow).net_profit =
          some (g - (amzMapRow amazonPendingRow).shipping_cost - pf)) := by
  have hsw : swTransform "Shopify" [scenarioARow] = some [swMapRow "Shopify" scenarioARow] := by
    simp [swTransform, swTransformOut, keepRecord, swMapRow, swRevenue, scenarioARow, rowOf,
      mand, toNumeric, toDatetime, parseDecimal, parseDate, trimChars, isSpaceChar,
      splitOnChar, digitsVal, astypeStr]
  have hamz : amzTransform [amazonPendingRow] = some [amzMapRow amazonPendingRow] := by
    simp [amzTransform, amzTransformOut, keepAmz, amzMapRow, amzRevenue, amazonPendingRow,
      rowOf, mand, toNumericCurrency, currencyClean, stripCurrencyChars, toDatetime,
      parseDecimal, parseDate, trimChars, isSpaceChar, splitOnChar, digitsVal, astypeStr,
      pyStrip]
    norm_num
  exact ⟨⟨hsw, c1_derived_financial_chain.1 "Shopify" [scenarioARow] _ _ hsw (by simp)⟩,
    ⟨hamz, c1_derived_financial_chain.2 [amazonPendingRow] _ _ hamz (by simp)⟩⟩

end ZeoFill

namespace ZeoFill

/-- C2: for every surviving record, `refund_amount` equals `revenue`
exactly when `financial_status` is `refunded` or `partially_refunded`
(Shopify/Walmart) or exactly `refunded` (Amazon, whose
`financial_status` is derived from `order-status` via the fixed
vocabulary with default `paid`); otherwise `refund_amount` is 0, and
`refund` always equals `refund_amount`. -/
theorem c2_refund_amount_rule :
    (∀ (channel : String) (rows : List Row) (out : List SWPre) (rec : SWPre),
        swTransform channel rows = some out → rec ∈ out →
        rec.refund = rec.refund_amount ∧
        ((rec.financial_status = "refunded" ∨ rec.financial_status = "partially_refunded") →
          rec.refund_amount = rec.revenue) ∧
        (¬(rec.financial_status = "refunded" ∨ rec.financial_status = "partially_refunded") →
          rec.refund_amount = some 0))
    ∧ (∀ (rows : List Row) (out : List AmzPre) (rec : AmzPre),
        amzTransform rows = some out → rec ∈ out →
        rec.refund = rec.refund_amount ∧
        (rec.financial_status = "refunded" → rec.refund_amount = rec.revenue) ∧
        (rec.financial_status ≠ "refunded" → rec.refund_amount = some 0))
    ∧ (∀ (row : Row) (c : Cell), row "order-status" = some c →
        (amzMapRow row).financial_status = amzStatusMap (pyStrip (astypeStr c)))
    ∧ amzStatusMap "Canceled" = "refunded" ∧ amzStatusMap "Cancelled" = "refunded"
    ∧ amzStatusMap "Pending" = "pending" ∧ amzStatusMap "Unshipped" = "pending"
    ∧ amzStatusMap "Shipped" = "paid" ∧ amzStatusMap "Delivered" = "paid"
    ∧ (∀ s : String,
        s ∉ ["Canceled", "Cancelled", "Pending", "Shipped", "Delivered", "Unshipped"] →
        amzStatusMap s = "paid") := by
  refine ⟨?_, ?_, ?_, rfl, rfl, rfl, rfl, rfl, rfl, ?_⟩
  · intro channel rows out rec hout hmem
    obtain ⟨hkeep, row, hrow, rfl⟩ := swTransform_mem hout hmem
    refine ⟨rfl, ?_, ?_⟩
    · intro h
      have h' : swFinancialStatus row = "refunded" ∨
          swFinancialStatus row = "partially_refunded" := h
      show swRefundAmount row = swRevenue row
      unfold swRefundAmount
      rcases h' with h' | h' <;> simp [h']
    · intro h
      have h' : ¬(swFinancialStatus row = "refunded" ∨
          swFinancialStatus row = "partially_refunded") := h
      push_neg at h'
      show swRefundAmount row = some 0
      unfold swRefundAmount
      simp [h'.1, h'.2]
  · intro rows out rec hout hmem
    obtain ⟨hkeep, row, hrow, rfl⟩ := amzTransform_mem hout hmem
    refine ⟨rfl, ?_, ?_⟩
    · intro h
      have h' : amzFinancialStatus row = "refunded" := h
      show amzRefundAmount row = amzRevenue row
      unfold amzRefundAmount
      simp [h']
    · intro h
      have h' : ¬amzFinancialStatus row = "refunded" := h
      show amzRefundAmount row = some 0
      unfold amzRefundAmount
      simp [h']
  · intro row c hc
    show amzFinancialStatus row = amzStatusMap (pyStrip (astypeStr c))
    unfold amzFinancialStatus
    rw [hc]
  · intro s hs
    simp only [List.mem_cons, List.mem_singleton, not_or] at hs
    obtain ⟨h1, h2, h3, h4, h5, h6, _⟩ := hs
    unfold amzStatusMap
    simp [h1, h2, h3, h4, h5, h6]

/-- Witness for `c2_refund_amount_rule` on a refunded Shopify row and a
canceled Amazon row. -/
theorem c2_refund_amount_rule_witness :
    (swTransform "Shopify" [swRefundedRow] = some [swMapRow "Shopify" swRefundedRow] ∧
      (swMapRow "Shopify" swRefundedRow).refund =
        (swMapRow "Shopify" swRefundedRow).refund_amount ∧
      (((swMapRow "Shopify" swRefundedRow).financial_status = "refunded" ∨
          (swMapRow "Shopify" swRefundedRow).financial_status = "partially_refunded") →
        (swMapRow "Shopify" swRefundedRow).refund_amount =
          (swMapRow "Shopify" swRefundedRow).revenue) ∧
      (¬((swMapRow "Shopify" swRefundedRow).financial_status = "refunded" ∨
          (swMapRow "Shopify" swRefundedRow).financial_status = "partially_refunded") →
        (swMapRow "Shopify" swRefundedRow).refund_amount = some 0)) ∧
    (amzTransform [amazonCanceledRow] = some [amzMapRow amazonCanceledRow] ∧
      (amzMapRow amazonCanceledRow).refund = (amzMapRow amazonCanceledRow).refund_amount ∧
      ((amzMapRow amazonCanceledRow).financial_status = "refunded" →
        (amzMapRow amazonCanceledRow).refund_amount = (amzMapRow amazonCanceledRow).revenue) ∧
      ((amzMapRow amazonCanceledRow).financial_status ≠ "refunded" →
        (amzMapRow amazonCanceledRow).refund_amount = some 0)) ∧
    (amazonCanceledRow "order-status" = some (some "Canceled") ∧
      (amzMapRow amazonCanceledRow).financial_status =
        amzStatusMap (pyStrip (astypeStr (some "Canceled")))) := by
  have hsw : swTransform "Shopify" [swRefundedRow] = some [swMapRow "Shopify" swRefundedRow] := by
    simp [swTransform, swTransformOut, keepRecord, swMapRow, swRevenue, swRefundedRow, rowOf,
      mand, toNumeric, toDatetime, parseDecimal, parseDate, trimChars, isSpaceChar,
      splitOnChar, digitsVal, astypeStr]
  have hamz : amzTransform [amazonCanceledRow] = some [amzMapRow amazonCanceledRow] := by
    simp [amzTransform, amzTransformOut, keepAmz, amzMapRow, amzRevenue, amazonCanceledRow,
      rowOf, mand, toNumericCurrency, currencyClean, stripCurrencyChars, toDatetime,
      parseDecimal, parseDate, trimChars, isSpaceChar, splitOnChar, digitsVal, astypeStr,
      pyStrip]
  have hcell : amazonCanceledRow "order-status" = some (some "Canceled") := by
    simp [amazonCanceledRow, rowOf]
  exact ⟨⟨hsw, c2_refund_amount_rule.1 "Shopify" [swRefundedRow] _ _ hsw (by simp)⟩,
    ⟨hamz, c2_refund_amount_rule.2.1 [amazonCanceledRow] _ _ hamz (by simp)⟩,
    hcell, c2_refund_amount_rule.2.2.1 amazonCanceledRow (some "Canceled") hcell⟩

/-- C3: for every Shopify/Walmart record,
`net_revenue = revenue - refund_amount` (the discount is not
subtracted), while for every Amazon record
`net_revenue = revenue - refund_amount - discount`. -/
theorem c3_net_revenue_asymmetry :
    (∀ (channel : String) (rows : List Row) (out : List SWPre) (rec : SWPre),
        swTransform channel rows = some out → rec ∈ out →
        ∃ r ra, rec.revenue = some r ∧ rec.refund_amount = some ra ∧
          rec.net_revenue = some (r - ra))
    ∧ (∀ (rows : List Row) (out : List AmzPre) (rec : AmzPre),
        amzTransform rows = some out → rec ∈ out →
        ∃ r ra, rec.revenue = some r ∧ rec.refund_amount = some ra ∧
          rec.net_revenue = some (r - ra - rec.discount)) := by
  constructor
  · intro channel rows out rec hout hmem
    obtain ⟨hkeep, row, hrow, rfl⟩ := swTransform_mem hout hmem
    obtain ⟨hdate, r, hrev, hpos⟩ := keepRecord_spec hkeep
    have hrev' : swRevenue row = some r := hrev
    obtain ⟨ra, pf, h1, h2, h3, h4, h5, h6, h7⟩ := swMapRow_chain channel hrev'
    exact ⟨r, ra, h1, h2, h5⟩
  · intro rows out rec hout hmem
    obtain ⟨hkeep, row, hrow, rfl⟩ := amzTransform_mem hout hmem
    obtain ⟨hdate, r, hrev, hpos⟩ := keepAmz_spec hkeep
    have hrev' : amzRevenue row = some r := hrev
    obtain ⟨ra, pf, h1, h2, h3, h4, h5, h6, h7⟩ := amzMapRow_chain hrev'
    exact ⟨r, ra, h1, h2, h5⟩

/-- Witness for `c3_net_revenue_asymmetry` on the Scenario A Shopify
table and a concrete Amazon table. -/
theorem c3_net_revenue_asymmetry_witness :
    (swTransform "Shopify" [scenarioARow] = some [swMapRow "Shopify" scenarioARow] ∧
      ∃ r ra, (swMapRow "Shopify" scenarioARow).revenue = some r ∧
        (swMapRow "Shopify" scenarioARow).refund_amount = some ra ∧
        (swMapRow "Shopify" scenarioARow).net_revenue = some (r - ra)) ∧
    (amzTransform [amazonCanceledRow] = some [amzMapRow amazonCanceledRow] ∧
      ∃ r ra, (amzMapRow amazonCanceledRow).revenue = some r ∧
        (amzMapRow amazonCanceledRow).refund_amount = some ra ∧
        (amzMapRow amazonCanceledRow).net_revenue =
          some (r - ra - (amzMapRow amazonCanceledRow).discount)) := by
  have hsw : swTransform "Shopify" [scenarioARow] = some [swMapRow "Shopify" scenarioARow] := by
    simp [swTransform, swTransformOut, keepRecord, swMapRow, swRevenue, scenarioARow, rowOf,
      mand, toNumeric, toDatetime, parseDecimal, parseDate, trimChars, isSpaceChar,
      splitOnChar, digitsVal, astypeStr]
  have hamz : amzTransform [amazonCanceledRow] = some [amzMapRow amazonCanceledRow] := by
    simp [amzTransform, amzTransformOut, keepAmz, amzMapRow, amzRevenue, amazonCanceledRow,
      rowOf, mand, toNumericCurrency, currencyClean, stripCurrencyChars, toDatetime,
      parseDecimal, parseDate, trimChars, isSpaceChar, splitOnChar, digitsVal, astypeStr,
      pyStrip]
  exact ⟨⟨hsw, c3_net_revenue_asymmetry.1 "Shopify" [scenarioARow] _ _ hsw (by simp)⟩,
    ⟨hamz, c3_net_revenue_asymmetry.2 [amazonCanceledRow] _ _ hamz (by simp)⟩⟩

end ZeoFill

namespace ZeoFill

/-- C4: Shopify `shipping_cost` is tiered by the weight value when the
weight column is present (7.0 below 1, 12.0 from 1 to 5, 19.5 above 5),
otherwise the parsed `line_shipping` defaulting to 0; and Scenario A
produces exactly the record the specification lists (platform fee 6.20,
net profit 41.80). -/
theorem c4_shopify_shipping_tiers :
    (∀ (row : Row) (s : String) (w : ℚ),
        row "weight" = some (some s) → parseDecimal s = some w →
        swShippingCost "Shopify" row =
          if w < 1 then 7.0 else if w ≤ 5 then 12.0 else 19.5)
    ∧ (∀ row : Row, row "weight" = none →
        swShippingCost "Shopify" row = fillna0 (toNumeric (mand row "line_shipping")))
    ∧ swTransform "Shopify" [scenarioARow] = some [scenarioARec] := by
  refine ⟨?_, ?_, ?_⟩
  · intro row s w hw hparse
    simp [swShippingCost, hw, calcShopifyShipping, hparse]
  · intro row hw
    simp [swShippingCost, hw]
  · have h1 : swMapRow "Shopify" scenarioARow = scenarioARec := by
      simp [swMapRow, swRevenue, swShippingCost, swFinancialStatus, swProducts,
        swRefundAmount, swPlatformFee, calcShopifyShipping, scenarioARow, scenarioARec,
        rowOf, mand, toNumeric, toDatetime, parseDecimal, parseDate, trimChars, isSpaceChar,
        splitOnChar, digitsVal, astypeStr, fillna0, osub, normState, pyStrip, pyLower,
        pyUpper, SWPre.mk.injEq]
      norm_num
    have h2 : swTransform "Shopify" [scenarioARow] = some [swMapRow "Shopify" scenarioARow] := by
      simp [swTransform, swTransformOut, keepRecord, swMapRow, swRevenue, scenarioARow, rowOf,
        mand, toNumeric, toDatetime, parseDecimal, parseDate, trimChars, isSpaceChar,
        splitOnChar, digitsVal, astypeStr]
    rw [h2, h1]

/-- Witness for `c4_shopify_shipping_tiers`: the tier rule applied to the
concrete weight cell of Scenario A, and the fallback applied to a row
without a weight column. -/
theorem c4_shopify_shipping_tiers_witness :
    (scenarioARow "weight" = some (some "3") ∧ parseDecimal "3" = some 3 ∧
      swShippingCost "Shopify" scenarioARow =
        if (3 : ℚ) < 1 then 7.0 else if (3 : ℚ) ≤ 5 then 12.0 else 19.5) ∧
    (walmartAdjRow "weight" = none ∧
      swShippingCost "Shopify" walmartAdjRow =
        fillna0 (toNumeric (mand walmartAdjRow "line_shipping"))) := by
  have hw : scenarioARow "weight" = some (some "3") := by simp [scenarioARow, rowOf]
  have hp : parseDecimal "3" = some 3 := by
    simp [parseDecimal, trimChars, isSpaceChar, splitOnChar, digitsVal]
  have hnone : walmartAdjRow "weight" = none := by simp [walmartAdjRow, rowOf]
  exact ⟨⟨hw, hp, c4_shopify_shipping_tiers.1 scenarioARow "3" 3 hw hp⟩,
    ⟨hnone, c4_shopify_shipping_tiers.2.1 walmartAdjRow hnone⟩⟩

end ZeoFill

namespace ZeoFill

/-- C5 as stated is false: the code compares the upper-cased
`transaction_type`, so a row whose cell is the lower-case string `adjmnt`
(not `ADJMNT`) still receives the commission as its shipping cost instead
of the 0 the claim assigns to all rows whose `transaction_type` is not
`ADJMNT`. -/
theorem c5_walmart_fee_gating_counterexample :
    walmartLowerAdjRow "transaction_type" = some (some "adjmnt") ∧
    walmartLowerAdjRow "commission_from_sale" = some (some "8.00") ∧
    "adjmnt" ≠ "ADJMNT" ∧
    swShippingCost "Walmart" walmartLowerAdjRow = 8 ∧ (8 : ℚ) ≠ 0 := by
  refine ⟨by simp [walmartLowerAdjRow, rowOf], by simp [walmartLowerAdjRow, rowOf],
    by decide, ?_, by norm_num⟩
  simp [swShippingCost, walmartLowerAdjRow, rowOf, astypeStr, pyUpper, fillna0, toNumeric,
    parseDecimal, trimChars, isSpaceChar, splitOnChar, digitsVal]

/-- C5 amended: with both fee columns present, `shipping_cost` is the
parsed `commission_from_sale` (filled with 0) exactly on rows whose
upper-cased `transaction_type` is `ADJMNT` and 0 elsewhere, and
`platform_fee` is the parsed commission exactly on rows whose upper-cased
`transaction_type` is `SALE` and 0 elsewhere; with either column absent,
`shipping_cost` falls back to `line_shipping` (default 0) and
`platform_fee` to `revenue * 0.15`; Scenario B gives 8.00 and 15.00. -/
theorem c5_walmart_fee_gating :
    (∀ (row : Row) (cc tc : Cell),
        row "commission_from_sale" = some cc → row "transaction_type" = some tc →
        (pyUpper (astypeStr tc) = "ADJMNT" →
          swShippingCost "Walmart" row = fillna0 (toNumeric cc)) ∧
        (pyUpper (astypeStr tc) ≠ "ADJMNT" → swShippingCost "Walmart" row = 0) ∧
        (pyUpper (astypeStr tc) = "SALE" →
          swPlatformFee "Walmart" row = some (fillna0 (toNumeric cc))) ∧
        (pyUpper (astypeStr tc) ≠ "SALE" → swPlatformFee "Walmart" row = some 0))
    ∧ (∀ row : Row,
        row "commission_from_sale" = none ∨ row "transaction_type" = none →
        swShippingCost "Walmart" row = fillna0 (toNumeric (mand row "line_shipping")) ∧
        swPlatformFee "Walmart" row = (swRevenue row).map (fun r => r * 0.15))
    ∧ swShippingCost "Walmart" walmartAdjRow = 8
    ∧ swPlatformFee "Walmart" walmartAdjRow = some 0
    ∧ swShippingCost "Walmart" walmartSaleRow = 0
    ∧ swPlatformFee "Walmart" walmartSaleRow = some 15 := by
  refine ⟨?_, ?_, ?_, ?_, ?_, ?_⟩
  · intro row cc tc hcc htc
    refine ⟨fun h => ?_, fun h => ?_, fun h => ?_, fun h => ?_⟩ <;>
      simp [swShippingCost, swPlatformFee, hcc, htc, h]
  · intro row h
    rcases h with h | h
    · constructor <;>
        · rcases htc : row "transaction_type" with _ | tc <;>
            simp [swShippingCost, swPlatformFee, h, htc]
    · constructor <;>
        · rcases hcc : row "commission_from_sale" with _ | cc <;>
            simp [swShippingCost, swPlatformFee, h, hcc]
  · simp [swShippingCost, walmartAdjRow, rowOf, astypeStr, pyUpper, fillna0, toNumeric,
      parseDecimal, trimChars, isSpaceChar, splitOnChar, digitsVal]
  · simp [swPlatformFee, walmartAdjRow, rowOf, astypeStr, pyUpper]
  · simp [swShippingCost, walmartSaleRow, rowOf, astypeStr, pyUpper]
  · simp [swPlatformFee, walmartSaleRow, rowOf, astypeStr, pyUpper, fillna0, toNumeric,
      parseDecimal, trimChars, isSpaceChar, splitOnChar, digitsVal]

/-- Witness for `c5_walmart_fee_gating`: the gating rule applied to the
concrete Scenario B fee rows, and the fallback applied to a row without
fee columns. -/
theorem c5_walmart_fee_gating_witness :
    (walmartAdjRow "commission_from_sale" = some (some "8.00") ∧
      walmartAdjRow "transaction_type" = some (some "ADJMNT") ∧
      (pyUpper (astypeStr (some "ADJMNT")) = "ADJMNT" →
        swShippingCost "Walmart" walmartAdjRow = fillna0 (toNumeric (some "8.00")))) ∧
    (scenarioARow "transaction_type" = none ∧
      swShippingCost "Walmart" scenarioARow =
        fillna0 (toNumeric (mand scenarioARow "line_shipping")) ∧
      swPlatformFee "Walmart" scenarioARow = (swRevenue scenarioARow).map (fun r => r * 0.15)) := by
  have hcc : walmartAdjRow "commission_from_sale" = some (some "8.00") := by
    simp [walmartAdjRow, rowOf]
  have htc : walmartAdjRow "transaction_type" = some (some "ADJMNT") := by
    simp [walmartAdjRow, rowOf]
  have hnone : scenarioARow "transaction_type" = none := by simp [scenarioARow, rowOf]
  refine ⟨⟨hcc, htc,
    (c5_walmart_fee_gating.1 walmartAdjRow (some "8.00") (some "ADJMNT") hcc htc).1⟩,
    hnone, ?_, ?_⟩
  · exact (c5_walmart_fee_gating.2.1 scenarioARow (Or.inr hnone)).1
  · exact (c5_walmart_fee_gating.2.1 scenarioARow (Or.inr hnone)).2

end ZeoFill

namespace ZeoFill

/-- C6 as stated is false: a malformed `item-price` is not defaulted to 0
in Amazon's `revenue` — the parse failure is left as null (and the row is
later dropped by validation), so `revenue` is `none`, not `some 0`. -/
theorem c6_currency_defaults_counterexample :
    amazonBadPriceRow "item-price" = some (some "abc") ∧
    toNumericCurrency (some "abc") = none ∧
    (amzMapRow amazonBadPriceRow).revenue = none ∧
    (amzMapRow amazonBadPriceRow).revenue ≠ some 0 := by
  have hcell : amazonBadPriceRow "item-price" = some (some "abc") := by
    simp [amazonBadPriceRow, rowOf]
  have hparse : toNumericCurrency (some "abc") = none := by
    simp [toNumericCurrency, currencyClean, stripCurrencyChars, astypeStr, pyStrip,
      parseDecimal, trimChars, isSpaceChar, splitOnChar]
  have hrev : (amzMapRow amazonBadPriceRow).revenue = none := by
    show amzRevenue amazonBadPriceRow = none
    simp [amzRevenue, hcell, hparse]
  exact ⟨hcell, hparse, hrev, by simp [hrev]⟩

/-- C6 amended: currency coercion strips `$` and `,` before parsing, so
`$1,234.56` parses exactly to 1234.56; a malformed currency string parses
to null and is defaulted to 0 in every filled field that consumes it
(shipping cost, taxes, platform fee, discounts), while Amazon's `revenue`
from `item-price` stays null and the row is dropped by validation rather
than being defaulted to 0. -/
theorem c6_currency_coercion :
    toNumericCurrency (some "$1,234.56") = some 1234.56
    ∧ (∀ (row : Row) (c : Cell), row "shipping_label_cost" = some c →
        toNumericCurrency c = none → amzShippingCost row = 0)
    ∧ (∀ (row : Row) (c : Cell), row "shop_fees" = some c →
        toNumericCurrency c = none → amzPlatformFee row = some 0)
    ∧ (∀ (row : Row) (c : Cell), row "item-tax" = some c →
        row "shipping-tax" = none → toNumericCurrency c = none → amzTax row = 0)
    ∧ (∀ (row : Row) (c : Cell), row "item-promotion-discount" = some c →
        row "ship-promotion-discount" = none → toNumericCurrency c = none →
        amzDiscount row = 0)
    ∧ (∀ (row : Row) (c : Cell), row "item-price" = some c →
        toNumericCurrency c = none →
        (amzMapRow row).revenue = none ∧ amzTransform [row] = none) := by
  refine ⟨?_, ?_, ?_, ?_, ?_, ?_⟩
  · simp [toNumericCurrency, currencyClean, stripCurrencyChars, astypeStr, pyStrip,
      parseDecimal, trimChars, isSpaceChar, splitOnChar, digitsVal]
    norm_num
  · intro row c hc hparse
    simp [amzShippingCost, hc, hparse, fillna0]
  · intro row c hc hparse
    simp [amzPlatformFee, hc, hparse, fillna0]
  · intro row c hc hst hparse
    simp [amzTax, hc, hst, hparse, fillna0]
  · intro row c hc hsp hparse
    simp [amzDiscount, hc, hsp, hparse, fillna0]
  · intro row c hc hparse
    have hrev : amzRevenue row = none := by simp [amzRevenue, hc, hparse]
    have hrev' : (amzMapRow row).revenue = none := hrev
    refine ⟨hrev', ?_⟩
    simp [amzTransform, amzTransformOut, keepAmz, hrev']

/-- Witness for `c6_currency_coercion`: the malformed string `abc` in the
fee and revenue positions of concrete rows. -/
theorem c6_currency_coercion_witness :
    (amazonBadPriceRow "item-price" = some (some "abc") ∧
      toNumericCurrency (some "abc") = none ∧
      (amzMapRow amazonBadPriceRow).revenue = none ∧
      amzTransform [amazonBadPriceRow] = none) := by
  have hcell : amazonBadPriceRow "item-price" = some (some "abc") := by
    simp [amazonBadPriceRow, rowOf]
  have hparse : toNumericCurrency (some "abc") = none := by
    simp [toNumericCurrency, currencyClean, stripCurrencyChars, astypeStr, pyStrip,
      parseDecimal, trimChars, isSpaceChar, splitOnChar]
  obtain ⟨h1, h2⟩ :=
    (c6_currency_coercion.2.2.2.2.2 amazonBadPriceRow (some "abc") hcell hparse)
  exact ⟨hcell, hparse, h1, h2⟩

end ZeoFill

namespace ZeoFill

/-- C7: no record with an unparsable date, an unparsable revenue, or a
non-positive revenue appears in any transform's canonical output, and a
transform whose filter leaves nothing returns `none` (a non-exceptional
empty-result signal) instead of raising. -/
theorem c7_validation_filter :
    (∀ (channel : String) (rows : List Row) (out : List SWPre) (rec : SWPre),
        swTransform channel rows = some out → rec ∈ out →
        rec.date.isSome = true ∧ ∃ r, rec.revenue = some r ∧ 0 < r)
    ∧ (∀ (rows : List Row) (out : List AmzPre) (rec : AmzPre),
        amzTransform rows = some out → rec ∈ out →
        rec.date.isSome = true ∧ ∃ r, rec.revenue = some r ∧ 0 < r)
    ∧ (∀ (channel : String) (rows : List Row),
        swTransformOut channel rows = [] → swTransform channel rows = none)
    ∧ (∀ rows : List Row, amzTransformOut rows = [] → amzTransform rows = none) := by
  refine ⟨?_, ?_, ?_, ?_⟩
  · intro channel rows out rec hout hmem
    obtain ⟨hkeep, _, _, _⟩ := swTransform_mem hout hmem
    exact keepRecord_spec hkeep
  · intro rows out rec hout hmem
    obtain ⟨hkeep, _, _, _⟩ := amzTransform_mem hout hmem
    exact keepAmz_spec hkeep
  · intro channel rows hempty
    simp [swTransform, hempty]
  · intro rows hempty
    simp [amzTransform, hempty]

/-- Witness for `c7_validation_filter`: the Scenario A table, and the
table holding only a row whose revenue fails to parse (everything is
filtered, so the transform signals `none`). -/
theorem c7_validation_filter_witness :
    (swTransform "Shopify" [scenarioARow] = some [swMapRow "Shopify" scenarioARow] ∧
      (swMapRow "Shopify" scenarioARow).date.isSome = true ∧
      ∃ r, (swMapRow "Shopify" scenarioARow).revenue = some r ∧ 0 < r) ∧
    (amzTransformOut [amazonBadPriceRow] = [] ∧
      amzTransform [amazonBadPriceRow] = none) := by
  have hsw : swTransform "Shopify" [scenarioARow] = some [swMapRow "Shopify" scenarioARow] := by
    simp [swTransform, swTransformOut, keepRecord, swMapRow, swRevenue, scenarioARow, rowOf,
      mand, toNumeric, toDatetime, parseDecimal, parseDate, trimChars, isSpaceChar,
      splitOnChar, digitsVal, astypeStr]
  have hempty : amzTransformOut [amazonBadPriceRow] = [] := by
    have hrev : (amzMapRow amazonBadPriceRow).revenue = none := by
      show amzRevenue amazonBadPriceRow = none
      simp [amzRevenue, amazonBadPriceRow, rowOf, toNumericCurrency, currencyClean,
        stripCurrencyChars, astypeStr, pyStrip, parseDecimal, trimChars, isSpaceChar,
        splitOnChar]
    simp [amzTransformOut, keepAmz, hrev]
  exact ⟨⟨hsw, c7_validation_filter.1 "Shopify" [scenarioARow] _ _ hsw (by simp)⟩,
    hempty, c7_validation_filter.2.2.2 [amazonBadPriceRow] hempty⟩

/-- The pagination loop gathers exactly the source rows after `offset`
and issues one request per full page plus the final short/empty one. -/
theorem fetchLoop_spec (data : List ℕ) :
    ∀ (n offset : ℕ), data.length - offset ≤ n →
      fetchLoop data offset =
        (data.drop offset, (data.length - offset) / pageSize + 1) := by
  intro n
  induction n with
  | zero =>
      intro offset hle
      have hdrop : data.drop offset = [] := by
        rw [List.drop_eq_nil_iff]
        omega
      have hlen : data.length - offset = 0 := by omega
      rw [fetchLoop]
      simp [pageAt, hdrop, hlen]
  | succ n ih =>
      intro offset hle
      rw [fetchLoop]
      by_cases h1 : (pageAt data offset).isEmpty
      · have hdrop : data.drop offset = [] := by
          have h1' := List.isEmpty_iff.mp h1
          simp only [pageAt, pageSize] at h1'
          rcases List.take_eq_nil_iff.mp h1' with h | h
          · exact absurd h (by norm_num)
          · exact h
        have hlen : data.length - offset = 0 := by
          have := List.drop_eq_nil_iff.mp hdrop
          omega
        rw [if_pos h1, hdrop, hlen]
        simp [pageSize]
      · by_cases h2 : (pageAt data offset).length < pageSize
        · have hlen : (pageAt data offset).length =
              min pageSize (data.drop offset).length := by
            simp [pageAt]
          have hshort : (data.drop offset).length < pageSize := by omega
          have hpage : pageAt data offset = data.drop offset := by
            simp only [pageAt]
            exact List.take_of_length_le (by omega)
          have hdiv : (data.length - offset) / pageSize = 0 := by
            apply Nat.div_eq_of_lt
            have := List.length_drop offset data
            omega
          rw [if_neg h1, dif_pos h2, hpage, hdiv]
        · have hlen : (pageAt data offset).length =
              min pageSize (data.drop offset).length := by
            simp [pageAt]
          have hfull : pageSize ≤ (data.drop offset).length := by omega
          have hrest : data.length - (offset + pageSize) ≤ n := by
            have := List.length_drop offset data
            simp only [pageSize] at hfull ⊢
            omega
          have hfst : pageAt data offset ++ data.drop (offset + pageSize) =
              data.drop offset := by
            simp only [pageAt]
            rw [← List.drop_drop pageSize offset data]
            exact List.take_append_drop pageSize (data.drop offset)
          have hsnd : (data.length - offset) / pageSize =
              (data.length - (offset + pageSize)) / pageSize + 1 := by
            have hm : pageSize ≤ data.length - offset := by
              have := List.length_drop offset data
              omega
            rw [Nat.div_eq_sub_div (by simp [pageSize]) hm]
            have harg : data.length - offset - pageSize =
                data.length - (offset + pageSize) := by omega
            rw [harg]
          rw [if_neg h1, dif_neg h2, ih (offset + pageSize) hrest, hsnd]
          exact congrArg₂ Prod.mk hfst rfl

/-- C8: every channel fetch pages with fixed size 1000 using offset-based
requests, stops exactly at the first empty or short page, and returns the
concatenation of all pages; a 1000-row source costs two requests, a
1400-row source two, a 400-row source one. -/
theorem c8_pagination :
    (∀ data : List ℕ, (fetchAllRows data).1 = data ∧
      (fetchAllRows data).2 = data.length / pageSize + 1)
    ∧ (fetchAllRows (List.replicate 1000 0)).2 = 2
    ∧ (fetchAllRows (List.replicate 1400 0)).2 = 2
    ∧ (fetchAllRows (List.replicate 400 0)).2 = 1 := by
  have hspec : ∀ data : List ℕ, fetchAllRows data = (data, data.length / pageSize + 1) := by
    intro data
    have h := fetchLoop_spec data data.length 0 (by omega)
    simpa [fetchAllRows] using h
  refine ⟨fun data => ?_, ?_, ?_, ?_⟩
  · rw [hspec data]
    exact ⟨rfl, rfl⟩
  · rw [hspec]
    show (List.replicate 1000 0).length / pageSize + 1 = 2
    rw [List.length_replicate]
    norm_num [pageSize]
  · rw [hspec]
    show (List.replicate 1400 0).length / pageSize + 1 = 2
    rw [List.length_replicate]
    norm_num [pageSize]
  · rw [hspec]
    show (List.replicate 400 0).length / pageSize + 1 = 1
    rw [List.length_replicate]
    norm_num [pageSize]

end ZeoFill

namespace ZeoFill

/-- C9 as stated is false: the Amazon transform never assigns the
`fulfillment_status` and `shipping_terms` columns promised by the
specification's fixed schema (it carries `order_status` instead). -/
theorem c9_schema_counterexample :
    "fulfillment_status" ∈ canonicalSchema ∧ "shipping_terms" ∈ canonicalSchema ∧
    "fulfillment_status" ∉ amzColumns ∧ "shipping_terms" ∉ amzColumns := by
  refine ⟨by decide, by decide, by decide, by decide⟩

/-- C9 amended: every Shopify/Walmart record carries the full canonical
schema, while Amazon records carry every canonical field except
`fulfillment_status` and `shipping_terms` (holding `order_status`
instead); `refund` equals `refund_amount` on every record of all three
channels; and the aggregator concatenates Shopify, Walmart, Amazon in
that fixed order. -/
theorem c9_schema_coverage :
    (∀ f ∈ canonicalSchema, f ∈ swColumns)
    ∧ (∀ f ∈ canonicalSchema,
        f = "fulfillment_status" ∨ f = "shipping_terms" ∨ f ∈ amzColumns)
    ∧ "order_status" ∈ amzColumns
    ∧ (∀ (channel : String) (row : Row),
        (swMapRow channel row).refund = (swMapRow channel row).refund_amount)
    ∧ (∀ row : Row, (amzMapRow row).refund = (amzMapRow row).refund_amount)
    ∧ (∀ (ls lw : List SWPre) (la : List AmzPre), ls ≠ [] → lw ≠ [] → la ≠ [] →
        fetchAllOrderData (some ls) (some lw) (some la) =
          some (ls.map Sum.inl ++ lw.map Sum.inl ++ la.map Sum.inr)) := by
  refine ⟨by decide, by decide, by decide, fun channel row => rfl, fun row => rfl, ?_⟩
  intro ls lw la h1 h2 h3
  have e1 : ls.isEmpty = false := by simpa [List.isEmpty_iff] using h1
  have e2 : lw.isEmpty = false := by simpa [List.isEmpty_iff] using h2
  have e3 : la.isEmpty = false := by simpa [List.isEmpty_iff] using h3
  simp [fetchAllOrderData, e1, e2, e3, List.isEmpty_iff, h1]

/-- Witness for `c9_schema_coverage`: a concrete schema field and a
concrete three-channel aggregation. -/
theorem c9_schema_coverage_witness :
    ("date" ∈ canonicalSchema ∧ "date" ∈ swColumns) ∧
    (([swMapRow "Shopify" scenarioARow] : List SWPre) ≠ [] ∧
      ([swMapRow "Walmart" walmartAdjRow] : List SWPre) ≠ [] ∧
      ([amzMapRow amazonPendingRow] : List AmzPre) ≠ [] ∧
      fetchAllOrderData (some [swMapRow "Shopify" scenarioARow])
          (some [swMapRow "Walmart" walmartAdjRow]) (some [amzMapRow amazonPendingRow]) =
        some ([Sum.inl (swMapRow "Shopify" scenarioARow),
          Sum.inl (swMapRow "Walmart" walmartAdjRow),
          Sum.inr (amzMapRow amazonPendingRow)])) := by
  refine ⟨⟨by decide, c9_schema_coverage.1 "date" (by decide)⟩,
    by simp, by simp, by simp, ?_⟩
  have h := c9_schema_coverage.2.2.2.2.2 [swMapRow "Shopify" scenarioARow]
    [swMapRow "Walmart" walmartAdjRow] [amzMapRow amazonPendingRow]
    (by simp) (by simp) (by simp)
  simpa using h

/-- C10: the per-field defaults apply only to an absent raw column, never
to a null cell: a present `financial_status` column with a null cell
yields the stringified status `nan` (so `refund_amount` is 0), not the
default `paid`, and a null `product_name` cell yields products `nan`,
not the default product name. -/
theorem c10_column_level_defaults :
    ∀ (channel : String) (row : Row),
      (row "financial_status" = some none →
        (swMapRow channel row).financial_status = "nan" ∧
        (swMapRow channel row).financial_status ≠ "paid" ∧
        (swMapRow channel row).refund_amount = some 0) ∧
      (row "product_name" = some none →
        (swMapRow channel row).products = "nan" ∧
        (swMapRow channel row).products ≠ "ZeoFill Product") := by
  intro channel row
  constructor
  · intro h
    have hfs : swFinancialStatus row = "nan" := by
      unfold swFinancialStatus
      rw [h]
      decide
    have hra : swRefundAmount row = some 0 := by
      unfold swRefundAmount
      rw [hfs]
      simp
    exact ⟨hfs, by rw [show (swMapRow channel row).financial_status =
      swFinancialStatus row from rfl, hfs]; decide, hra⟩
  · intro h
    have hp : swProducts row = "nan" := by
      unfold swProducts
      rw [h]
      decide
    exact ⟨hp, by rw [show (swMapRow channel row).products =
      swProducts row from rfl, hp]; decide⟩

/-- Witness for `c10_column_level_defaults` on the concrete row whose
status and product cells are null. -/
theorem c10_column_level_defaults_witness :
    (swNullCellRow "financial_status" = some none ∧
      (swMapRow "Shopify" swNullCellRow).financial_status = "nan" ∧
      (swMapRow "Shopify" swNullCellRow).financial_status ≠ "paid" ∧
      (swMapRow "Shopify" swNullCellRow).refund_amount = some 0) ∧
    (swNullCellRow "product_name" = some none ∧
      (swMapRow "Shopify" swNullCellRow).products = "nan" ∧
      (swMapRow "Shopify" swNullCellRow).products ≠ "ZeoFill Product") := by
  have h1 : swNullCellRow "financial_status" = some none := by simp [swNullCellRow, rowOf]
  have h2 : swNullCellRow "product_name" = some none := by simp [swNullCellRow, rowOf]
  obtain ⟨hA, hB⟩ := c10_column_level_defaults "Shopify" swNullCellRow
  obtain ⟨a1, a2, a3⟩ := hA h1
  obtain ⟨b1, b2⟩ := hB h2
  exact ⟨⟨h1, a1, a2, a3⟩, h2, b1, b2⟩

end ZeoFill
